import Mathlib

/-!
Verification development for the solar project-finance cashflow engine.

The Python sources under src/model are shallowly embedded: pandas DataFrame
columns become functions from the period index to exact rationals (or reals,
where fractional-exponent discounting appears), float arithmetic becomes
exact arithmetic, and each Python loop carrying state becomes a structural
recursion carrying the same state.
-/

namespace SolarModel

/-! ## Period grid (src/model/energy.py, calculate_monthly_energy lines 43-59)

The monthly timeline: months_in_operation is 0 during construction and
i - construction_months + 1 afterwards; year_in_operation is
m // 12 + 1 for operating months and 0 during construction. -/

/-- Embeds the months_in_operation assignment of energy.py lines 49-52. -/
def month_in_operation (cm : ℕ) (i : ℕ) : ℕ :=
  if i < cm then 0 else i - cm + 1

/-- Embeds the year_in_operation list comprehension of energy.py line 58:
m // 12 + 1 if m > 0 else 0. -/
def year_in_operation (cm : ℕ) (i : ℕ) : ℕ :=
  if month_in_operation cm i > 0 then month_in_operation cm i / 12 + 1 else 0

/-! ## Tax liability with NOL carryforward (src/model/tax.py lines 173-226) -/

/-- One row of the tax ledger produced by TaxModel.calculate_taxes. -/
structure TaxRow where
  federal_tax : ℚ
  state_tax : ℚ
  total_tax : ℚ
  nol_utilized : ℚ
  nol_balance : ℚ
deriving DecidableEq

/-- Embeds one iteration of the loop in TaxModel.calculate_taxes
(tax.py lines 191-218): negative taxable income grows the NOL balance and
pays no tax; nonnegative income is offset by available NOL and the residual
is taxed at the federal and state rates independently. total_tax is the sum
of the two columns as formed at line 222. -/
def taxStep (fedRate stRate : ℚ) (nol ti : ℚ) : TaxRow :=
  if ti < 0 then
    { federal_tax := 0, state_tax := 0, total_tax := 0
      nol_utilized := 0, nol_balance := nol + |ti| }
  else
    let used := if nol > 0 then min nol ti else 0
    let residual := ti - used
    { federal_tax := residual * fedRate
      state_tax := residual * stRate
      total_tax := residual * fedRate + residual * stRate
      nol_utilized := used
      nol_balance := nol - used }

/-- The NOL balance carried into period p by the loop of
TaxModel.calculate_taxes: 0 before the first period (tax.py line 185), and
afterwards the balance left by the previous period's step. -/
def nolBefore (fedRate stRate : ℚ) (ti : ℕ → ℚ) : ℕ → ℚ
  | 0 => 0
  | p + 1 => (taxStep fedRate stRate (nolBefore fedRate stRate ti p) (ti p)).nol_balance

/-- Embeds TaxModel.calculate_taxes as a function of the period index:
the row produced for period p by the left-to-right scan. -/
def calculate_taxes (fedRate stRate : ℚ) (ti : ℕ → ℚ) (p : ℕ) : TaxRow :=
  taxStep fedRate stRate (nolBefore fedRate stRate ti p) (ti p)

/-- The carried NOL balance is never negative. -/
theorem nolBefore_nonneg (fr sr : ℚ) (ti : ℕ → ℚ) (p : ℕ) :
    0 ≤ nolBefore fr sr ti p := by
  induction p with
  | zero => simp [nolBefore]
  | succ p ih =>
    show 0 ≤ (taxStep fr sr (nolBefore fr sr ti p) (ti p)).nol_balance
    unfold taxStep
    split
    · have := abs_nonneg (ti p)
      simp only
      linarith
    · simp only
      split
      · have h1 : min (nolBefore fr sr ti p) (ti p) ≤ nolBefore fr sr ti p :=
          min_le_left _ _
        linarith
      · linarith

/-- C2: The tax-liability computation is a left-to-right scan over periods
carrying an NOL balance: a period with negative taxable income adds the loss
magnitude to the balance and owes zero federal and state tax; a period with
nonnegative taxable income offsets income by min(balance, income), reduces
the balance by exactly the amount used, and pays federal-rate and
state-rate tax independently on the residual, summed into total_tax;
consequently a loss period followed by a profit period pays tax only on the
residual after full NOL offset. -/
theorem tax_nol_scan_correct (fr sr : ℚ) (ti : ℕ → ℚ) (p : ℕ) :
    calculate_taxes fr sr ti p = taxStep fr sr (nolBefore fr sr ti p) (ti p)
    ∧ (ti p < 0 →
        calculate_taxes fr sr ti p =
          { federal_tax := 0, state_tax := 0, total_tax := 0
            nol_utilized := 0
            nol_balance := nolBefore fr sr ti p + |ti p| })
    ∧ (0 ≤ ti p →
        let nol := nolBefore fr sr ti p
        calculate_taxes fr sr ti p =
          { federal_tax := (ti p - min nol (ti p)) * fr
            state_tax := (ti p - min nol (ti p)) * sr
            total_tax := (ti p - min nol (ti p)) * fr + (ti p - min nol (ti p)) * sr
            nol_utilized := min nol (ti p)
            nol_balance := nol - min nol (ti p) })
    ∧ (∀ L P : ℚ, 0 < L → 0 ≤ P →
        (calculate_taxes fr sr (fun k => if k = 0 then -L else P) 0).total_tax = 0
        ∧ (calculate_taxes fr sr (fun k => if k = 0 then -L else P) 1).nol_utilized
            = min L P
        ∧ (calculate_taxes fr sr (fun k => if k = 0 then -L else P) 1).total_tax
            = (P - min L P) * (fr + sr)) := by
  refine ⟨rfl, ?_, ?_, ?_⟩
  · intro hti
    simp [calculate_taxes, taxStep, hti]
  · intro hti
    have hnol := nolBefore_nonneg fr sr ti p
    rcases lt_or_eq_of_le hnol with hpos | hzero
    · simp [calculate_taxes, taxStep, not_lt.mpr hti, hpos]
    · simp [calculate_taxes, taxStep, not_lt.mpr hti, ← hzero,
        min_eq_left hti]
  · intro L P hL hP
    have hn1 : nolBefore fr sr (fun k => if k = 0 then -L else P) 1 = L := by
      simp [nolBefore, taxStep, neg_lt_zero.mpr hL, abs_of_pos hL]
    refine ⟨?_, ?_, ?_⟩
    · simp [calculate_taxes, taxStep, nolBefore, neg_lt_zero.mpr hL]
    · simp [calculate_taxes, taxStep, hn1, not_lt.mpr hP, hL]
    · simp [calculate_taxes, taxStep, hn1, not_lt.mpr hP, hL]
      ring

/-- Witness for tax_nol_scan_correct: a concrete loss of 3 followed by a
profit of 10 at 21% federal and 7% state rates uses the full NOL of 3 and
pays tax 7 * 28% = 1.96 only on the residual. -/
theorem tax_nol_scan_correct_witness :
    (calculate_taxes (21/100) (7/100) (fun k => if k = 0 then -(3:ℚ) else 10) 0).total_tax = 0
    ∧ (calculate_taxes (21/100) (7/100) (fun k => if k = 0 then -(3:ℚ) else 10) 1).nol_utilized = 3
    ∧ (calculate_taxes (21/100) (7/100) (fun k => if k = 0 then -(3:ℚ) else 10) 1).total_tax
        = 196/100 := by
  have h := (tax_nol_scan_correct (21/100) (7/100)
    (fun k => if k = 0 then -(3:ℚ) else 10) 0).2.2.2 3 10 (by norm_num) (by norm_num)
  refine ⟨h.1, ?_, ?_⟩
  · rw [h.2.1]; norm_num
  · rw [h.2.2]; norm_num

/-! ## Equity split and terminal value
(src/model/runner.py lines 160-176, src/model/cashflow.py lines 120-157) -/

/-- Embeds the negative branch of the equity split loop (runner.py lines
162-164): equity_contribution = abs(fcfe) when fcfe < 0, else 0. -/
def equity_contribution (fcfe : ℚ) : ℚ :=
  if fcfe < 0 then |fcfe| else 0

/-- Embeds the nonnegative branch of the equity split loop (runner.py lines
165-167): equity_distribution = fcfe when fcfe >= 0, else 0. -/
def equity_distribution (fcfe : ℚ) : ℚ :=
  if fcfe < 0 then 0 else fcfe

/-- Embeds CashflowModel.add_terminal_value (cashflow.py lines 134-157):
the terminal_value column starts at zero; for each configured exit year
whose exit period (last month of that operating year) and full EBITDA year
lie inside the table, the 12 EBITDA rows of that operating year are summed,
multiplied by the exit multiple, and written at the exit period. -/
def add_terminal_value (cm : ℕ) (exitYears : List ℕ) (mult : ℚ) (n : ℕ)
    (ebitda : ℕ → ℚ) : ℕ → ℚ :=
  exitYears.foldl (fun tv y =>
    let exitPeriod := cm + y * 12 - 1
    if exitPeriod < n then
      let yearStart := cm + (y - 1) * 12
      if yearStart + 12 ≤ n then
        Function.update tv exitPeriod
          ((∑ k ∈ Finset.range 12, ebitda (yearStart + k)) * mult)
      else tv
    else tv) (fun _ => 0)

/-- Embeds runner.py line 176: the terminal value column is added onto the
already-split equity_distribution column. -/
def final_equity_distribution (fcfe tv : ℕ → ℚ) : ℕ → ℚ :=
  fun p => equity_distribution (fcfe p) + tv p

/-- Nonzero terminal value appears only at a configured exit period. -/
theorem add_terminal_value_support (cm : ℕ) (ys : List ℕ) (mult : ℚ)
    (n : ℕ) (ebitda : ℕ → ℚ) (p : ℕ)
    (h : add_terminal_value cm ys mult n ebitda p ≠ 0) :
    ∃ y ∈ ys, p = cm + y * 12 - 1 := by
  unfold add_terminal_value at h
  have main : ∀ (ys2 : List ℕ) (acc : ℕ → ℚ), acc p = 0 →
      (List.foldl (fun tv y =>
        let exitPeriod := cm + y * 12 - 1
        if exitPeriod < n then
          let yearStart := cm + (y - 1) * 12
          if yearStart + 12 ≤ n then
            Function.update tv exitPeriod
              ((∑ k ∈ Finset.range 12, ebitda (yearStart + k)) * mult)
          else tv
        else tv) acc ys2) p ≠ 0 →
      ∃ y ∈ ys2, p = cm + y * 12 - 1 := by
    intro ys2
    induction ys2 with
    | nil => intro acc hacc hne; exact absurd hacc hne
    | cons y ys2 ih =>
      intro acc hacc hne
      simp only [List.foldl_cons] at hne
      by_cases hy : p = cm + y * 12 - 1
      · exact ⟨y, by simp, hy⟩
      · have hstep : (if cm + y * 12 - 1 < n then
            if cm + (y - 1) * 12 + 12 ≤ n then
              Function.update acc (cm + y * 12 - 1)
                ((∑ k ∈ Finset.range 12, ebitda (cm + (y - 1) * 12 + k)) * mult)
            else acc
          else acc) p = 0 := by
          split
          · split
            · rw [Function.update_noteq hy]
              exact hacc
            · exact hacc
          · exact hacc
        rcases ih _ hstep hne with ⟨y2, hy2, hp2⟩
        exact ⟨y2, by simp [hy2], hp2⟩
  exact main ys (fun _ => 0) rfl h

/-- C1 counterexample: with construction_months = 1, exit year 1, exit
multiple 8, EBITDA of 12 in each operating month and FCFE = -1 in the exit
period 12, the final table has equity_contribution = 1 and
equity_distribution = 0 + 1152 in period 12: both are positive and their
difference is 1151, not the period's FCFE of -1. -/
theorem equity_split_terminal_counterexample :
    ¬ (∀ p, p < 13 →
      ¬(0 < equity_contribution ((fun k => if k = 12 then (-1:ℚ) else 0) p) ∧
        0 < final_equity_distribution (fun k => if k = 12 then (-1:ℚ) else 0)
            (add_terminal_value 1 [1] 8 13 (fun k => if k = 0 then 0 else 12)) p) ∧
      final_equity_distribution (fun k => if k = 12 then (-1:ℚ) else 0)
          (add_terminal_value 1 [1] 8 13 (fun k => if k = 0 then 0 else 12)) p -
        equity_contribution ((fun k => if k = 12 then (-1:ℚ) else 0) p) =
        (fun k => if k = 12 then (-1:ℚ) else 0) p) := by
  intro h
  have htv : add_terminal_value 1 [1] 8 13 (fun k => if k = 0 then 0 else 12) 12
      = 1152 := by
    unfold add_terminal_value
    simp only [List.foldl_cons, List.foldl_nil]
    norm_num [Function.update_same, Finset.sum_range_succ]
  have h12 := h 12 (by norm_num)
  rcases h12 with ⟨hnb, hdiff⟩
  rw [final_equity_distribution, htv] at hdiff
  simp only [if_pos rfl] at hdiff
  rw [equity_contribution, equity_distribution] at hdiff
  norm_num at hdiff

/-- C1 (amended): in the final cashflow table, the per-period equity split
satisfies: at every period with zero terminal value, equity contribution and
distribution are not both positive and their difference equals FCFE; at
every period, distribution minus contribution equals FCFE plus terminal
value; and terminal value is nonzero only at a configured exit period. -/
theorem equity_split_terminal_amended (cm n : ℕ) (exitYears : List ℕ)
    (mult : ℚ) (ebitda fcfe : ℕ → ℚ) (p : ℕ) :
    (add_terminal_value cm exitYears mult n ebitda p = 0 →
      ¬(0 < equity_contribution (fcfe p) ∧
        0 < final_equity_distribution fcfe
            (add_terminal_value cm exitYears mult n ebitda) p) ∧
      final_equity_distribution fcfe
          (add_terminal_value cm exitYears mult n ebitda) p -
        equity_contribution (fcfe p) = fcfe p)
    ∧ final_equity_distribution fcfe
          (add_terminal_value cm exitYears mult n ebitda) p -
        equity_contribution (fcfe p)
        = fcfe p + add_terminal_value cm exitYears mult n ebitda p
    ∧ (add_terminal_value cm exitYears mult n ebitda p ≠ 0 →
        ∃ y ∈ exitYears, p = cm + y * 12 - 1) := by
  refine ⟨?_, ?_, add_terminal_value_support cm exitYears mult n ebitda p⟩
  · intro htv
    rw [final_equity_distribution, htv, add_zero]
    unfold equity_contribution equity_distribution
    constructor
    · split
      · intro hc
        exact absurd hc.2 (lt_irrefl 0)
      · intro hc
        exact absurd hc.1 (lt_irrefl 0)
    · split
      · rename_i hneg
        rw [abs_of_neg hneg]
        ring
      · ring
  · rw [final_equity_distribution]
    unfold equity_contribution equity_distribution
    split
    · rename_i hneg
      rw [abs_of_neg hneg]
      ring
    · ring

/-- Witness for equity_split_terminal_amended: at the concrete exit table of
the counterexample, period 5 has zero terminal value and FCFE 0, so the
split difference equals FCFE there; period 12 has nonzero terminal value
1152 and is the exit period of exit year 1. -/
theorem equity_split_terminal_amended_witness :
    (final_equity_distribution (fun k => if k = 12 then (-1:ℚ) else 0)
        (add_terminal_value 1 [1] 8 13 (fun k => if k = 0 then 0 else 12)) 5 -
      equity_contribution ((fun k => if k = 12 then (-1:ℚ) else 0) 5) = 0)
    ∧ ∃ y ∈ [1], 12 = 1 + y * 12 - 1 := by
  have htv5 : add_terminal_value 1 [1] 8 13 (fun k => if k = 0 then 0 else 12) 5
      = 0 := by
    unfold add_terminal_value
    simp only [List.foldl_cons, List.foldl_nil]
    norm_num [Function.update_noteq]
  have htv12 : add_terminal_value 1 [1] 8 13 (fun k => if k = 0 then 0 else 12) 12
      = 1152 := by
    unfold add_terminal_value
    simp only [List.foldl_cons, List.foldl_nil]
    norm_num [Function.update_same, Finset.sum_range_succ]
  constructor
  · have h := ((equity_split_terminal_amended 1 13 [1] 8
      (fun k => if k = 0 then 0 else 12)
      (fun k => if k = 12 then (-1:ℚ) else 0) 5).1 htv5).2
    rw [h]
    norm_num
  · have h := (equity_split_terminal_amended 1 13 [1] 8
      (fun k => if k = 0 then 0 else 12)
      (fun k => if k = 12 then (-1:ℚ) else 0) 12).2.2
    exact h (by rw [htv12]; norm_num)

/-! ## Energy production and degradation (src/model/energy.py lines 69-182) -/

/-- Embeds the linear degradation factor of energy.py lines 97-98 and
169-170: 1 - degradation_rate * (year_in_operation - 1), with no clamping. -/
def degradation_factor (rate : ℚ) (y : ℕ) : ℚ :=
  1 - rate * ((y : ℚ) - 1)

/-- Gregorian leap-year rule, as used by Python datetime arithmetic. -/
def isLeapYear (y : ℕ) : Bool :=
  (y % 4 == 0 && y % 100 != 0) || (y % 400 == 0)

/-- Calendar days in month m of year y, matching the day count that
energy.py lines 101-107 derives by subtracting consecutive month-start
datetimes. -/
def daysInMonth (y m : ℕ) : ℕ :=
  if m = 2 then (if isLeapYear y then 29 else 28)
  else if m = 4 ∨ m = 6 ∨ m = 9 ∨ m = 11 then 30
  else 31

/-- Absolute month number (year * 12 + month - 1) of period i: the COD
month shifted by i - construction_months, since the period date is
NTP + i months and NTP = COD - construction_months (energy.py lines 37,44). -/
def periodAbsMonth (codAM cm i : ℕ) : ℕ :=
  codAM + i - cm

/-- Calendar days in the month containing period i. -/
def period_days_in_month (codAM cm i : ℕ) : ℕ :=
  daysInMonth (periodAbsMonth codAM cm i / 12) (periodAbsMonth codAM cm i % 12 + 1)

/-- Embeds EnergyModel._calculate_synthetic (energy.py lines 86-118):
zero during construction; otherwise base annual energy
(ac_kw * capacity_factor * 8760 * performance_ratio) times the calendar-day
fraction of the year (365.25-day divisor), the unclamped degradation
factor, availability, and one minus curtailment. -/
def synth_monthly_ac (acKw capFac perfRat avail curt rate : ℚ)
    (cm codAM i : ℕ) : ℚ :=
  if month_in_operation cm i = 0 then 0
  else
    (acKw * capFac * 8760 * perfRat) *
      ((period_days_in_month codAM cm i : ℚ) / 365.25) *
      degradation_factor rate (year_in_operation cm i) * avail * (1 - curt)

/-- Embeds the per-period body of EnergyModel._calculate_from_8760
(energy.py lines 156-176): zero during construction; otherwise the
aggregated base energy of the period's calendar month times the same
unclamped degradation factor, availability, and one minus curtailment. -/
def profile_monthly_ac (monthlyBase : ℕ → ℚ) (avail curt rate : ℚ)
    (cm codAM i : ℕ) : ℚ :=
  if month_in_operation cm i = 0 then 0
  else
    monthlyBase (periodAbsMonth codAM cm i % 12 + 1) *
      degradation_factor rate (year_in_operation cm i) * avail * (1 - curt)

/-- C3 counterexample: with a 1%/year degradation rate, construction of one
month, COD June 2027 (absolute month 24329) and 102 or more model years,
operating year 102 (period 1213) has degradation factor -1/100 < 0, and
the monthly energy in both modes is negative for the test-suite sizing
inputs: the code never clamps the factor at zero. -/
theorem degradation_unclamped_counterexample :
    degradation_factor (1/100) (year_in_operation 1 1213) < 0
    ∧ synth_monthly_ac 8000 (1/5) (85/100) (98/100) (2/100) (1/100) 1 24329 1213 < 0
    ∧ profile_monthly_ac (fun _ => 1000) (98/100) (2/100) (1/100) 1 24329 1213 < 0 := by
  have hy : year_in_operation 1 1213 = 102 := by
    norm_num [year_in_operation, month_in_operation]
  have hfac : degradation_factor (1/100) (year_in_operation 1 1213) = -(1/100) := by
    rw [hy]
    norm_num [degradation_factor]
  have hm : month_in_operation 1 1213 = 1213 := by
    norm_num [month_in_operation]
  have hdays : period_days_in_month 24329 1 1213 = 30 := by
    norm_num [period_days_in_month, periodAbsMonth, daysInMonth]
  refine ⟨by rw [hfac]; norm_num, ?_, ?_⟩
  · rw [synth_monthly_ac, if_neg (by rw [hm]; norm_num), hfac, hdays]
    norm_num
  · rw [profile_monthly_ac, if_neg (by rw [hm]; norm_num), hfac]
    norm_num

/-- C3 (amended): the degradation factor is 1 - rate * (year - 1) with no
negativity guard; it is nonnegative exactly when rate * (year - 1) <= 1,
and under that bound (which holds in particular whenever
rate * (model_years - 1) <= 1) the factor and the monthly energy of both
modes are nonnegative for nonnegative configuration inputs. -/
theorem degradation_guard_amended (acKw capFac perfRat avail curt rate : ℚ)
    (monthlyBase : ℕ → ℚ) (cm codAM i : ℕ)
    (hac : 0 ≤ acKw) (hcf : 0 ≤ capFac) (hpr : 0 ≤ perfRat)
    (hav : 0 ≤ avail) (hcurt : curt ≤ 1) (hmb : ∀ m, 0 ≤ monthlyBase m)
    (hbound : rate * ((year_in_operation cm i : ℚ) - 1) ≤ 1) :
    (∀ y : ℕ, 0 ≤ degradation_factor rate y ↔ rate * ((y : ℚ) - 1) ≤ 1)
    ∧ 0 ≤ degradation_factor rate (year_in_operation cm i)
    ∧ 0 ≤ synth_monthly_ac acKw capFac perfRat avail curt rate cm codAM i
    ∧ 0 ≤ profile_monthly_ac monthlyBase avail curt rate cm codAM i := by
  have hiff : ∀ y : ℕ, 0 ≤ degradation_factor rate y ↔ rate * ((y : ℚ) - 1) ≤ 1 := by
    intro y
    unfold degradation_factor
    constructor <;> intro h <;> linarith
  have hfac : 0 ≤ degradation_factor rate (year_in_operation cm i) :=
    (hiff _).mpr hbound
  refine ⟨hiff, hfac, ?_, ?_⟩
  · rw [synth_monthly_ac]
    split
    · exact le_refl 0
    · have hdays : (0:ℚ) ≤ (period_days_in_month codAM cm i : ℚ) / 365.25 := by
        positivity
      have hbase : (0:ℚ) ≤ acKw * capFac * 8760 * perfRat := by positivity
      have h1 : (0:ℚ) ≤ 1 - curt := by linarith
      exact mul_nonneg (mul_nonneg (mul_nonneg (mul_nonneg hbase hdays) hfac) hav) h1
  · rw [profile_monthly_ac]
    split
    · exact le_refl 0
    · have h1 : (0:ℚ) ≤ 1 - curt := by linarith
      exact mul_nonneg (mul_nonneg (mul_nonneg (hmb _) hfac) hav) h1

/-- Witness for degradation_guard_amended: the default 0.5%/year rate at
the 12th operating month (operating year 2) of a one-month construction
timeline keeps the factor and both energy modes nonnegative. -/
theorem degradation_guard_amended_witness :
    0 ≤ degradation_factor (1/200) (year_in_operation 1 12)
    ∧ 0 ≤ synth_monthly_ac 8000 (1/5) (85/100) (98/100) (2/100) (1/200) 1 24329 12
    ∧ 0 ≤ profile_monthly_ac (fun _ => 1000) (98/100) (2/100) (1/200) 1 24329 12 := by
  have h := degradation_guard_amended 8000 (1/5) (85/100) (98/100) (2/100) (1/200)
    (fun _ => 1000) 1 24329 12
    (by norm_num) (by norm_num) (by norm_num) (by norm_num) (by norm_num)
    (fun m => by norm_num)
    (by norm_num [year_in_operation, month_in_operation])
  exact ⟨h.2.1, h.2.2.1, h.2.2.2⟩

/-! ## Debt service schedule (src/model/debt.py lines 79-171) -/

/-- One row of the debt schedule produced by DebtModel.calculate_debt_service. -/
structure DebtRow where
  debt_balance : ℚ
  interest_payment : ℚ
  principal_payment : ℚ
  total_debt_service : ℚ
deriving DecidableEq

/-- Embeds the level annuity payment of debt.py lines 131-136:
principal * (r * (1+r)^n) / ((1+r)^n - 1) for positive monthly rate, else
principal / n. -/
def levelPayment (P r : ℚ) (n : ℕ) : ℚ :=
  if r > 0 then P * (r * (1 + r) ^ n) / ((1 + r) ^ n - 1)
  else P / (n : ℚ)

/-- Embeds the amortization branch of debt.py lines 129-147: the level mode
pays payment - interest as principal; the sculpted mode pays equal
principal debt_principal / tenor_months; any other amortization name falls
into the final else branch, which also pays debt_principal / tenor_months. -/
def principal_for (amort : String) (P r : ℚ) (tenor : ℕ) (bal : ℚ) : ℚ :=
  if amort = "level" then levelPayment P r tenor - bal * r
  else if amort = "sculpted" then P / (tenor : ℚ)
  else P / (tenor : ℚ)

/-- The running current_balance of the loop in debt.py lines 112-160, as a
function of how many loop iterations have executed: unchanged during
construction and after the tenor, decremented by the period's principal
payment during the tenor. -/
def balAfter (amort : String) (P r : ℚ) (tenor cm : ℕ) : ℕ → ℚ
  | 0 => P
  | p + 1 =>
    if p < cm then balAfter amort P r tenor cm p
    else if p - cm < tenor then
      balAfter amort P r tenor cm p -
        principal_for amort P r tenor (balAfter amort P r tenor cm p)
    else balAfter amort P r tenor cm p

/-- Embeds DebtModel.calculate_debt_service (debt.py lines 79-171) as a
function of the period index: all-zero rows when debt is off or principal
is nonpositive; during construction the full balance with no service;
during the tenor the interest on the incoming balance, the mode's principal
payment, and the decremented balance; all-zero rows after the tenor.
total_debt_service is interest + principal as formed at line 169. -/
def calculate_debt_service (useDebt : Bool) (P r : ℚ) (tenor cm : ℕ)
    (amort : String) (p : ℕ) : DebtRow :=
  if useDebt = false ∨ P ≤ 0 then
    { debt_balance := 0, interest_payment := 0
      principal_payment := 0, total_debt_service := 0 }
  else if p < cm then
    { debt_balance := balAfter amort P r tenor cm p, interest_payment := 0
      principal_payment := 0, total_debt_service := 0 }
  else if p - cm < tenor then
    let bal := balAfter amort P r tenor cm p
    let interest := bal * r
    let principal := principal_for amort P r tenor bal
    { debt_balance := bal - principal, interest_payment := interest
      principal_payment := principal
      total_debt_service := interest + principal }
  else
    { debt_balance := 0, interest_payment := 0
      principal_payment := 0, total_debt_service := 0 }

/-- Closed form of the loop balance after k payment periods: the standard
annuity balance for level amortization at a positive rate, and straight-line
P - k * P/n for equal-principal amortization (sculpted, the fallback
branch, and level at zero rate). -/
def closedBalance (amort : String) (P r : ℚ) (n : ℕ) (k : ℕ) : ℚ :=
  if amort = "level" ∧ 0 < r then
    P * ((1 + r) ^ n - (1 + r) ^ k) / ((1 + r) ^ n - 1)
  else P - (k : ℚ) * (P / (n : ℚ))

/-- With a positive rate the annuity denominator is positive. -/
theorem annuity_denom_pos (r : ℚ) (n : ℕ) (hr : 0 < r) (hn : 0 < n) :
    0 < (1 + r) ^ n - 1 := by
  have h1 : (1:ℚ) < 1 + r := by linarith
  have := one_lt_pow₀ h1 hn.ne'
  linarith

/-- The closed-form balance starts at the full principal. -/
theorem closedBalance_zero (amort : String) (P r : ℚ) (n : ℕ) (hn : 0 < n) :
    closedBalance amort P r n 0 = P := by
  unfold closedBalance
  split
  · rename_i hc
    have hd := annuity_denom_pos r n hc.2 hn
    rw [pow_zero]
    field_simp
  · simp

/-- The closed-form balance satisfies the loop recurrence: subtracting the
period's principal payment moves from k to k+1. -/
theorem closedBalance_step (amort : String) (P r : ℚ) (n : ℕ) (k : ℕ)
    (hr : 0 ≤ r) (hn : 0 < n) :
    closedBalance amort P r n k -
      principal_for amort P r n (closedBalance amort P r n k) =
    closedBalance amort P r n (k + 1) := by
  by_cases hlev : amort = "level"
  · rcases lt_or_eq_of_le hr with hrpos | hrzero
    · have hd := annuity_denom_pos r n hrpos hn
      have hcond : amort = "level" ∧ 0 < r := ⟨hlev, hrpos⟩
      have hdne : (1 + r) ^ n - 1 ≠ 0 := hd.ne'
      simp only [closedBalance, principal_for, if_pos hcond, if_pos hlev,
        levelPayment, if_pos hrpos]
      field_simp
      ring
    · subst hrzero
      have hcond : ¬(amort = "level" ∧ (0:ℚ) < 0) := by simp
      simp only [closedBalance, principal_for, if_neg hcond, if_pos hlev,
        levelPayment, if_neg (lt_irrefl (0:ℚ)), mul_zero, sub_zero]
      push_cast
      ring
  · have hcond : ¬(amort = "level" ∧ 0 < r) := fun hc => hlev hc.1
    simp only [closedBalance, principal_for, if_neg hcond, if_neg hlev]
    split
    · push_cast
      ring
    · push_cast
      ring

/-- The loop balance is the full principal through construction. -/
theorem balAfter_construction (amort : String) (P r : ℚ) (tenor cm : ℕ)
    (p : ℕ) (hp : p ≤ cm) : balAfter amort P r tenor cm p = P := by
  induction p with
  | zero => rfl
  | succ p ih =>
    have hplt : p < cm := Nat.lt_of_succ_le hp
    unfold balAfter
    rw [if_pos hplt]
    exact ih (Nat.le_of_lt hplt)

/-- During the tenor the loop balance follows the closed form. -/
theorem balAfter_closed (amort : String) (P r : ℚ) (tenor cm : ℕ) (k : ℕ)
    (hr : 0 ≤ r) (htenor : 0 < tenor) (hk : k ≤ tenor) :
    balAfter amort P r tenor cm (cm + k) = closedBalance amort P r tenor k := by
  induction k with
  | zero =>
    rw [Nat.add_zero, balAfter_construction amort P r tenor cm cm le_rfl,
      closedBalance_zero amort P r tenor htenor]
  | succ k ih =>
    have hklt : k < tenor := Nat.lt_of_succ_le hk
    have hstep : cm + (k + 1) = (cm + k) + 1 := by omega
    rw [hstep]
    unfold balAfter
    rw [if_neg (by omega), if_pos (by omega : cm + k - cm < tenor)]
    rw [ih (Nat.le_of_lt hklt)]
    exact closedBalance_step amort P r tenor k hr htenor

/-- The closed-form balance is nonnegative inside the tenor. -/
theorem closedBalance_nonneg (amort : String) (P r : ℚ) (n : ℕ) (k : ℕ)
    (hP : 0 < P) (hr : 0 ≤ r) (hn : 0 < n) (hk : k ≤ n) :
    0 ≤ closedBalance amort P r n k := by
  unfold closedBalance
  split
  · rename_i hc
    have hd := annuity_denom_pos r n hc.2 hn
    have h1 : (1:ℚ) ≤ 1 + r := by linarith
    have hnum : (1 + r) ^ k ≤ (1 + r) ^ n := pow_le_pow_right₀ h1 hk
    have : 0 ≤ P * ((1 + r) ^ n - (1 + r) ^ k) :=
      mul_nonneg hP.le (by linarith)
    positivity
  · have hPn : 0 ≤ P / (n : ℚ) := by positivity
    have hcast : (k : ℚ) ≤ (n : ℚ) := by exact_mod_cast hk
    have h2 : (k : ℚ) * (P / (n : ℚ)) ≤ (n : ℚ) * (P / (n : ℚ)) :=
      mul_le_mul_of_nonneg_right hcast hPn
    have h3 : (n : ℚ) * (P / (n : ℚ)) = P := by
      have : (n : ℚ) ≠ 0 := Nat.cast_ne_zero.mpr hn.ne'
      field_simp
    linarith

/-- The closed-form balance is nonincreasing inside the tenor. -/
theorem closedBalance_mono (amort : String) (P r : ℚ) (n : ℕ) (k : ℕ)
    (hP : 0 < P) (hr : 0 ≤ r) (hn : 0 < n) :
    closedBalance amort P r n (k + 1) ≤ closedBalance amort P r n k := by
  unfold closedBalance
  split
  · rename_i hc
    have hd := annuity_denom_pos r n hc.2 hn
    have h1 : (1:ℚ) ≤ 1 + r := by linarith
    have hnum : (1 + r) ^ k ≤ (1 + r) ^ (k + 1) :=
      pow_le_pow_right₀ h1 (Nat.le_succ k)
    rw [div_le_div_iff₀ hd hd]
    have := mul_le_mul_of_nonneg_left hnum hP.le
    nlinarith
  · have hPn : 0 ≤ P / (n : ℚ) := by positivity
    have hcast : (k : ℚ) ≤ ((k + 1 : ℕ) : ℚ) := by push_cast; linarith
    have := mul_le_mul_of_nonneg_right hcast hPn
    linarith

/-- The closed-form balance is exactly zero at the end of the tenor. -/
theorem closedBalance_tenor_end (amort : String) (P r : ℚ) (n : ℕ)
    (hn : 0 < n) : closedBalance amort P r n n = 0 := by
  unfold closedBalance
  split
  · simp
  · have : (n : ℚ) ≠ 0 := Nat.cast_ne_zero.mpr hn.ne'
    field_simp

/-- The recorded debt balance column in closed form. -/
theorem debt_balance_closed (amort : String) (P r : ℚ) (tenor cm : ℕ)
    (hP : 0 < P) (hr : 0 ≤ r) (htenor : 0 < tenor) (p : ℕ) :
    (calculate_debt_service true P r tenor cm amort p).debt_balance =
      (if p < cm then P
       else if p - cm < tenor then closedBalance amort P r tenor (p - cm + 1)
       else 0) := by
  have hcond : ¬(true = false ∨ P ≤ 0) := by simp [not_le.mpr hP]
  unfold calculate_debt_service
  rw [if_neg hcond]
  split
  · rename_i hpcm
    exact balAfter_construction amort P r tenor cm p (le_of_lt hpcm)
  · rename_i hpcm
    split
    · rename_i hptenor
      show balAfter amort P r tenor cm p -
          principal_for amort P r tenor (balAfter amort P r tenor cm p) =
          closedBalance amort P r tenor (p - cm + 1)
      have hrw : cm + (p - cm) = p := by omega
      have hbal : balAfter amort P r tenor cm p =
          closedBalance amort P r tenor (p - cm) := by
        have h2 := balAfter_closed amort P r tenor cm (p - cm) hr htenor
          (le_of_lt (by omega))
        rw [hrw] at h2
        exact h2
      rw [hbal]
      exact closedBalance_step amort P r tenor (p - cm) hr htenor
    · rename_i hptenor
      rfl

/-- The recorded principal payment column in closed form: the difference of
consecutive closed-form balances during the tenor, zero elsewhere. -/
theorem debt_principal_closed (amort : String) (P r : ℚ) (tenor cm : ℕ)
    (hP : 0 < P) (hr : 0 ≤ r) (htenor : 0 < tenor) (p : ℕ) :
    (calculate_debt_service true P r tenor cm amort p).principal_payment =
      (if p < cm then 0
       else if p - cm < tenor then
         closedBalance amort P r tenor (p - cm) -
           closedBalance amort P r tenor (p - cm + 1)
       else 0) := by
  have hcond : ¬(true = false ∨ P ≤ 0) := by simp [not_le.mpr hP]
  unfold calculate_debt_service
  rw [if_neg hcond]
  split
  · rfl
  · rename_i hpcm
    split
    · rename_i hptenor
      show principal_for amort P r tenor (balAfter amort P r tenor cm p) =
          closedBalance amort P r tenor (p - cm) -
            closedBalance amort P r tenor (p - cm + 1)
      have hrw : cm + (p - cm) = p := by omega
      have hbal : balAfter amort P r tenor cm p =
          closedBalance amort P r tenor (p - cm) := by
        have h2 := balAfter_closed amort P r tenor cm (p - cm) hr htenor
          (le_of_lt (by omega))
        rw [hrw] at h2
        exact h2
      rw [hbal]
      have := closedBalance_step amort P r tenor (p - cm) hr htenor
      linarith
    · rfl

/-- C6: with debt enabled, positive sized principal and a tenor ending
inside the model horizon, the debt balance column (in both amortization
modes and for any amortization name) is nonnegative everywhere, equal to
the full principal throughout construction, monotonically non-increasing,
exactly zero from the last tenor period on, and the principal payments over
the horizon sum exactly to the original principal. -/
theorem debt_schedule_invariants (amort : String) (P r : ℚ)
    (tenor cm total : ℕ) (hP : 0 < P) (hr : 0 ≤ r) (htenor : 0 < tenor)
    (hfit : cm + tenor ≤ total) :
    (∀ p, 0 ≤ (calculate_debt_service true P r tenor cm amort p).debt_balance)
    ∧ (∀ p, p < cm →
        (calculate_debt_service true P r tenor cm amort p).debt_balance = P)
    ∧ (∀ p, (calculate_debt_service true P r tenor cm amort (p + 1)).debt_balance
        ≤ (calculate_debt_service true P r tenor cm amort p).debt_balance)
    ∧ (∀ p, cm + tenor - 1 ≤ p →
        (calculate_debt_service true P r tenor cm amort p).debt_balance = 0)
    ∧ (∑ p ∈ Finset.range total,
        (calculate_debt_service true P r tenor cm amort p).principal_payment = P) := by
  refine ⟨?_, ?_, ?_, ?_, ?_⟩
  · intro p
    rw [debt_balance_closed amort P r tenor cm hP hr htenor p]
    split
    · exact hP.le
    · split
      · exact closedBalance_nonneg amort P r tenor _ hP hr htenor (by omega)
      · exact le_refl 0
  · intro p hp
    rw [debt_balance_closed amort P r tenor cm hP hr htenor p, if_pos hp]
  · intro p
    rw [debt_balance_closed amort P r tenor cm hP hr htenor p,
      debt_balance_closed amort P r tenor cm hP hr htenor (p + 1)]
    split
    · rename_i h1
      rw [if_pos (by omega : p < cm)]
    · rename_i h1
      split
      · rename_i h2
        by_cases hd1 : p < cm
        · rw [if_pos hd1]
          have hk : p + 1 - cm = 0 := by omega
          rw [hk]
          have := closedBalance_mono amort P r tenor 0 hP hr htenor
          have h0 := closedBalance_zero amort P r tenor htenor
          rw [h0] at this
          exact this
        · rw [if_neg hd1, if_pos (by omega : p - cm < tenor)]
          have hk : p + 1 - cm = p - cm + 1 := by omega
          rw [hk]
          exact closedBalance_mono amort P r tenor (p - cm + 1) hP hr htenor
      · rename_i h2
        by_cases hd1 : p < cm
        · omega
        · rw [if_neg hd1]
          split
          · exact closedBalance_nonneg amort P r tenor _ hP hr htenor (by omega)
          · exact le_refl 0
  · intro p hp
    rw [debt_balance_closed amort P r tenor cm hP hr htenor p]
    rw [if_neg (by omega : ¬ p < cm)]
    split
    · rename_i h2
      have hk : p - cm + 1 = tenor := by omega
      rw [hk]
      exact closedBalance_tenor_end amort P r tenor htenor
    · rfl
  · have hterm : ∀ p ∈ Finset.range total,
        (calculate_debt_service true P r tenor cm amort p).principal_payment =
        (if p ∈ Finset.Ico cm (cm + tenor) then
          closedBalance amort P r tenor (p - cm) -
            closedBalance amort P r tenor (p - cm + 1)
         else 0) := by
      intro p _
      rw [debt_principal_closed amort P r tenor cm hP hr htenor p]
      rcases lt_or_le p cm with h1 | h1
      · rw [if_pos h1, if_neg (by simp [Finset.mem_Ico]; omega)]
      · rw [if_neg (not_lt.mpr h1)]
        rcases Nat.lt_or_ge (p - cm) tenor with h2 | h2
        · rw [if_pos h2, if_pos (by simp [Finset.mem_Ico]; omega)]
        · rw [if_neg (by omega), if_neg (by simp [Finset.mem_Ico]; omega)]
    rw [Finset.sum_congr rfl hterm]
    rw [Finset.sum_ite_mem]
    have hsub : Finset.Ico cm (cm + tenor) ⊆ Finset.range total := by
      intro x hx
      simp only [Finset.mem_Ico] at hx
      simp only [Finset.mem_range]
      omega
    rw [Finset.inter_eq_right.mpr hsub]
    rw [Finset.sum_Ico_eq_sum_range]
    have hrw : ∀ k, cm + k - cm = k := fun k => by omega
    have hsimp : ∀ k ∈ Finset.range (cm + tenor - cm),
        closedBalance amort P r tenor (cm + k - cm) -
          closedBalance amort P r tenor (cm + k - cm + 1) =
        closedBalance amort P r tenor k -
          closedBalance amort P r tenor (k + 1) := by
      intro k _
      rw [hrw k]
    rw [Finset.sum_congr rfl hsimp]
    have htn : cm + tenor - cm = tenor := by omega
    rw [htn, Finset.sum_range_sub' (fun k => closedBalance amort P r tenor k) tenor]
    rw [closedBalance_zero amort P r tenor htenor,
      closedBalance_tenor_end amort P r tenor htenor, sub_zero]

/-- Witness for debt_schedule_invariants: a 1200 principal at 1% monthly
rate over a 12-month tenor after 2 construction months in a 20-period
horizon, level amortization. -/
theorem debt_schedule_invariants_witness :
    (calculate_debt_service true 1200 (1/100) 12 2 "level" 1).debt_balance = 1200
    ∧ ∑ p ∈ Finset.range 20,
        (calculate_debt_service true 1200 (1/100) 12 2 "level" p).principal_payment
        = 1200 := by
  have h := debt_schedule_invariants "level" 1200 (1/100) 12 2 20
    (by norm_num) (by norm_num) (by norm_num) (by norm_num)
  exact ⟨h.2.1 1 (by norm_num), h.2.2.2.2⟩

/-- Any amortization name other than level computes the same per-period
principal as the sculpted branch: equal principal P / tenor. -/
theorem principal_for_fallback (amort : String) (P r : ℚ) (tenor : ℕ)
    (hlev : amort ≠ "level") :
    principal_for amort P r tenor = principal_for "sculpted" P r tenor := by
  funext bal
  unfold principal_for
  rw [if_neg hlev, if_neg (by decide : ¬("sculpted":String) = "level"),
    if_pos rfl]
  split <;> rfl

/-- The loop balance for a fallback amortization name equals the sculpted
loop balance. -/
theorem balAfter_fallback (amort : String) (P r : ℚ) (tenor cm : ℕ)
    (hlev : amort ≠ "level") (p : ℕ) :
    balAfter amort P r tenor cm p = balAfter "sculpted" P r tenor cm p := by
  induction p with
  | zero => rfl
  | succ p ih =>
    unfold balAfter
    rw [ih, principal_for_fallback amort P r tenor hlev]

/-- C4: an unrecognized amortization option produces the equal-principal
(sculpted) schedule, not the level schedule the fallback comment documents:
at principal 1200, 1% monthly rate, 12-month tenor, the fallback pays
principal 100 in the first period while level amortization pays
payment - interest, which is not 100. -/
theorem amortization_fallback_is_sculpted (amort : String) (useDebt : Bool)
    (P r : ℚ) (tenor cm p : ℕ) (hlev : amort ≠ "level") :
    calculate_debt_service useDebt P r tenor cm amort p =
      calculate_debt_service useDebt P r tenor cm "sculpted" p
    ∧ (calculate_debt_service true 1200 (1/100) 12 0 "unrecognized" 0).principal_payment
        = 100
    ∧ (calculate_debt_service true 1200 (1/100) 12 0 "level" 0).principal_payment
        ≠ 100 := by
  refine ⟨?_, ?_, ?_⟩
  · unfold calculate_debt_service
    rw [balAfter_fallback amort P r tenor cm hlev p,
      principal_for_fallback amort P r tenor hlev]
  · have hcond : ¬(true = false ∨ (1200:ℚ) ≤ 0) := by norm_num
    unfold calculate_debt_service
    rw [if_neg hcond, if_neg (by norm_num : ¬ (0:ℕ) < 0), if_pos (by norm_num)]
    show principal_for "unrecognized" 1200 (1/100) 12
        (balAfter "unrecognized" 1200 (1/100) 12 0 0) = 100
    rw [principal_for_fallback "unrecognized" 1200 (1/100) 12 (by decide)]
    show (1200 : ℚ) / ((12:ℕ) : ℚ) = 100
    norm_num
  · have hcond : ¬(true = false ∨ (1200:ℚ) ≤ 0) := by norm_num
    unfold calculate_debt_service
    rw [if_neg hcond, if_neg (by norm_num : ¬ (0:ℕ) < 0), if_pos (by norm_num)]
    show principal_for "level" 1200 (1/100) 12
        (balAfter "level" 1200 (1/100) 12 0 0) ≠ 100
    unfold principal_for levelPayment balAfter
    rw [if_pos rfl, if_pos (by norm_num : (0:ℚ) < 1/100)]
    norm_num

/-- Witness for amortization_fallback_is_sculpted at the unrecognized name
with the concrete failing input. -/
theorem amortization_fallback_is_sculpted_witness :
    calculate_debt_service true 1200 (1/100) 12 0 "unrecognized" 0 =
      calculate_debt_service true 1200 (1/100) 12 0 "sculpted" 0
    ∧ (calculate_debt_service true 1200 (1/100) 12 0 "unrecognized" 0).principal_payment
        = 100 := by
  have h := amortization_fallback_is_sculpted "unrecognized" true 1200 (1/100)
    12 0 0 (by decide)
  exact ⟨h.1, h.2.1⟩

/-! ## Metrics: irregular-date discounting, XIRR, XNPV, LCOE
(src/model/metrics.py lines 21-63 and 156-192) -/

/-- Embeds the day-count exponent of metrics.py lines 33-34 and 61:
(date - first date) in days divided by 365.25. -/
noncomputable def yearsFrom (dates : ℕ → ℤ) (p : ℕ) : ℝ :=
  ((dates p - dates 0 : ℤ) : ℝ) / 365.25

/-- Embeds the npv closure of metrics.py lines 37-38: the sum of
cashflow / (1 + rate) ^ years over the zipped series. -/
noncomputable def xirrNPV (n : ℕ) (dates : ℕ → ℤ) (cf : ℕ → ℚ) (rate : ℝ) : ℝ :=
  ∑ p ∈ Finset.range n, (cf p : ℝ) / (1 + rate) ^ yearsFrom dates p

/-- Derivative in rate of the npv function, used by the Newton model of the
root-finder. -/
noncomputable def xirrNPVDeriv (n : ℕ) (dates : ℕ → ℤ) (cf : ℕ → ℚ)
    (rate : ℝ) : ℝ :=
  ∑ p ∈ Finset.range n,
    (cf p : ℝ) * (-(yearsFrom dates p)) * (1 + rate) ^ (yearsFrom dates p - 1)

open Classical

/-- Modelled from the spec: scipy.optimize.newton is external library code
(not part of this repository); the spec describes it as a derivative-based
root-finder with a bounded iteration count that either converges or signals
failure. It is modelled as a fuel-bounded Newton iteration returning none
on failure (fuel exhausted or zero derivative). -/
noncomputable def newtonSolve (f df : ℝ → ℝ) : ℕ → ℝ → Option ℝ
  | 0, _ => none
  | fuel + 1, x =>
    if f x = 0 then some x
    else if df x = 0 then none
    else newtonSolve f df fuel (x - f x / df x)

/-- Embeds MetricsCalculator.calculate_xirr (metrics.py lines 21-46):
dates.iloc[0] at line 33 raises IndexError on an empty series before the
try block, modelled as .error; otherwise the solver runs on the npv
function with initial guess 0.1 and maxiter 100 inside the try block, and
any solver failure is caught and returned as the NaN marker (none). -/
noncomputable def calculate_xirr (n : ℕ) (dates : ℕ → ℤ) (cf : ℕ → ℚ) :
    Except Unit (Option ℝ) :=
  if n = 0 then .error ()
  else .ok (newtonSolve (xirrNPV n dates cf) (xirrNPVDeriv n dates cf) 100 (1/10))

/-- Embeds MetricsCalculator.calculate_xnpv (metrics.py lines 48-63):
the sum of cashflow / (1 + rate) ^ ((date - first date) / 365.25). -/
noncomputable def calculate_xnpv (n : ℕ) (dates : ℕ → ℤ) (cf : ℕ → ℚ)
    (rate : ℝ) : ℝ :=
  ∑ p ∈ Finset.range n, (cf p : ℝ) / (1 + rate) ^ yearsFrom dates p

/-- C7 counterexample: on an empty dates/cashflows input calculate_xirr
raises IndexError (dates.iloc[0] at metrics.py line 33 sits outside the
try block), so it does not return the NaN marker there. -/
theorem xirr_empty_input_counterexample :
    calculate_xirr 0 (fun _ => 0) (fun _ => 0) = .error () := by
  simp [calculate_xirr]

/-- C7 (amended): for every nonempty dates/cashflows input, calculate_xirr
runs the bounded derivative-based solver started at rate 0.1 with maxiter
100 on the 365.25-day-count NPV function, never raises (always returns an
ok value), and returns the NaN marker exactly when the solver fails. -/
theorem xirr_error_handling_amended (n : ℕ) (dates : ℕ → ℤ) (cf : ℕ → ℚ)
    (hn : 0 < n) :
    calculate_xirr n dates cf =
      .ok (newtonSolve (xirrNPV n dates cf) (xirrNPVDeriv n dates cf) 100 (1/10))
    ∧ (∃ v, calculate_xirr n dates cf = .ok v)
    ∧ (newtonSolve (xirrNPV n dates cf) (xirrNPVDeriv n dates cf) 100 (1/10) = none →
        calculate_xirr n dates cf = .ok none) := by
  have h : calculate_xirr n dates cf =
      .ok (newtonSolve (xirrNPV n dates cf) (xirrNPVDeriv n dates cf) 100 (1/10)) := by
    unfold calculate_xirr
    rw [if_neg hn.ne']
  refine ⟨h, ⟨_, h⟩, ?_⟩
  intro hfail
  rw [h, hfail]

/-- Witness for xirr_error_handling_amended at a concrete two-row input. -/
theorem xirr_error_handling_amended_witness :
    calculate_xirr 2 (fun p => if p = 0 then 0 else 365)
        (fun p => if p = 0 then -1000 else 1200) =
      .ok (newtonSolve
        (xirrNPV 2 (fun p => if p = 0 then 0 else 365)
          (fun p => if p = 0 then -1000 else 1200))
        (xirrNPVDeriv 2 (fun p => if p = 0 then 0 else 365)
          (fun p => if p = 0 then -1000 else 1200)) 100 (1/10))
    ∧ ∃ v, calculate_xirr 2 (fun p => if p = 0 then 0 else 365)
        (fun p => if p = 0 then -1000 else 1200) = .ok v := by
  have h := xirr_error_handling_amended 2 (fun p => if p = 0 then 0 else 365)
    (fun p => if p = 0 then -1000 else 1200) (by norm_num)
  exact ⟨h.1, h.2.1⟩

/-- C8: evaluating calculate_xnpv at the round-trip input of the repository
test suite - cashflows [-1000, 1100] dated 365 days apart, 10% rate - gives
exactly 1000 * (1.1 ^ (1/1461) - 1), which exceeds 0.01: the 365.25-day
divisor discounts the one-year cashflow by less than a full year, so the
XNPV is about 0.065, not 0.00 within 0.01 as the claim (and the code's own
test) requires. -/
theorem xnpv_round_trip_failing_input :
    calculate_xnpv 2 (fun p => if p = 0 then 0 else 365)
        (fun p => if p = 0 then -1000 else 1100) (1/10)
      = 1000 * ((11/10 : ℝ) ^ ((1:ℝ)/1461) - 1)
    ∧ 1/100 < calculate_xnpv 2 (fun p => if p = 0 then 0 else 365)
        (fun p => if p = 0 then -1000 else 1100) (1/10) := by
  have hbase : (0:ℝ) < 11/10 := by norm_num
  have hsplit : (11/10 : ℝ) ^ ((1460:ℝ)/1461) * (11/10 : ℝ) ^ ((1:ℝ)/1461)
      = 11/10 := by
    rw [← Real.rpow_add hbase]
    norm_num
  have hApos : (0:ℝ) < (11/10 : ℝ) ^ ((1460:ℝ)/1461) :=
    Real.rpow_pos_of_pos hbase _
  have hval : calculate_xnpv 2 (fun p => if p = 0 then 0 else 365)
      (fun p => if p = 0 then -1000 else 1100) (1/10)
      = 1000 * ((11/10 : ℝ) ^ ((1:ℝ)/1461) - 1) := by
    unfold calculate_xnpv yearsFrom
    rw [Finset.sum_range_succ, Finset.sum_range_one]
    norm_num
    have h1 : (1100:ℝ) / (11/10 : ℝ) ^ ((1460:ℝ)/1461)
        = 1000 * (11/10 : ℝ) ^ ((1:ℝ)/1461) := by
      rw [div_eq_iff hApos.ne']
      nlinarith [hsplit]
    rw [h1]
    ring
  refine ⟨hval, ?_⟩
  rw [hval]
  have hile : ((50001:ℝ)/50000) ^ (1461:ℕ) ≤ 11/10 := by
    have hM : ((1 + 1/50000) * (1 - 1/50000) : ℝ) ^ (1461:ℕ) ≤ 1 :=
      pow_le_one₀ (by norm_num) (by norm_num)
    rw [mul_pow] at hM
    have hA0 : (0:ℝ) ≤ (1 + 1/50000 : ℝ) ^ (1461:ℕ) := by positivity
    have hBge : (1 - 1461 * (1/50000) : ℝ) ≤ (1 - 1/50000 : ℝ) ^ (1461:ℕ) := by
      have hB := one_add_mul_le_pow (a := -(1/50000 : ℝ)) (by norm_num) 1461
      have he : (1 + -(1/50000) : ℝ) = 1 - 1/50000 := by ring
      rw [he] at hB
      push_cast at hB
      linarith
    have hmul := mul_le_mul_of_nonneg_left hBge hA0
    have hle : ((50001:ℝ)/50000) = 1 + 1/50000 := by norm_num
    rw [hle]
    nlinarith [hmul, hM]
  have hroot : (50001:ℝ)/50000 ≤ (11/10 : ℝ) ^ ((1:ℝ)/1461) := by
    have h0 : (0:ℝ) ≤ (50001:ℝ)/50000 := by norm_num
    have h2 := Real.rpow_le_rpow
      (by positivity : (0:ℝ) ≤ ((50001:ℝ)/50000) ^ (1461:ℕ)) hile
      (by norm_num : (0:ℝ) ≤ 1/1461)
    have h3 : (((50001:ℝ)/50000) ^ (1461:ℕ)) ^ ((1:ℝ)/1461)
        = (50001:ℝ)/50000 := by
      rw [← Real.rpow_natCast ((50001:ℝ)/50000) 1461,
        ← Real.rpow_mul h0]
      norm_num
    rw [h3] at h2
    exact h2
  linarith

/-- Embeds MetricsCalculator.calculate_lcoe (metrics.py lines 156-192):
costs are total_capex + total_opex + total_debt_service - itc_credit -
upfront_grants; nominal LCOE is PV(costs)/PV(energy) at the nominal
discount rate when PV(energy) > 0 (NaN, modelled as none, otherwise); real
LCOE repeats the computation at (1+d)/(1+i) - 1. -/
noncomputable def calculate_lcoe (discountRate inflationRate : ℝ) (n : ℕ)
    (dates : ℕ → ℤ)
    (total_capex total_opex total_debt_service itc_credit upfront_grants
      ac_mwh : ℕ → ℚ) : Option ℝ × Option ℝ :=
  let costs : ℕ → ℚ := fun p =>
    total_capex p + total_opex p + total_debt_service p - itc_credit p -
      upfront_grants p
  let npvCostsNominal := calculate_xnpv n dates costs discountRate
  let npvEnergyNominal := calculate_xnpv n dates ac_mwh discountRate
  let nominal := if 0 < npvEnergyNominal
    then some (npvCostsNominal / npvEnergyNominal) else none
  let realRate := (1 + discountRate) / (1 + inflationRate) - 1
  let npvCostsReal := calculate_xnpv n dates costs realRate
  let npvEnergyReal := calculate_xnpv n dates ac_mwh realRate
  let realVal := if 0 < npvEnergyReal
    then some (npvCostsReal / npvEnergyReal) else none
  (nominal, realVal)

/-- The LCOE numerator as the claim words it, written from the spec for
comparison with calculate_lcoe: present value of capital cost plus
operating cost plus debt service, net of ITC, net of PTC, and net of
upfront grants; denominator the present value of energy; real LCOE at the
Fisher-deflated rate. -/
noncomputable def lcoe_per_spec (discountRate inflationRate : ℝ) (n : ℕ)
    (dates : ℕ → ℤ)
    (total_capex total_opex total_debt_service itc_credit ptc_amount
      upfront_grants ac_mwh : ℕ → ℚ) : Option ℝ × Option ℝ :=
  let costs : ℕ → ℚ := fun p =>
    total_capex p + total_opex p + total_debt_service p - itc_credit p -
      ptc_amount p - upfront_grants p
  let realRate := (1 + discountRate) / (1 + inflationRate) - 1
  ((if 0 < calculate_xnpv n dates ac_mwh discountRate
    then some (calculate_xnpv n dates costs discountRate /
      calculate_xnpv n dates ac_mwh discountRate) else none),
   (if 0 < calculate_xnpv n dates ac_mwh realRate
    then some (calculate_xnpv n dates costs realRate /
      calculate_xnpv n dates ac_mwh realRate) else none))

/-- A one-row XNPV is the first cashflow itself: the day-count exponent is
zero so the discount factor is one. -/
theorem xnpv_single_row (dates : ℕ → ℤ) (cf : ℕ → ℚ) (rate : ℝ) :
    calculate_xnpv 1 dates cf rate = (cf 0 : ℝ) := by
  unfold calculate_xnpv yearsFrom
  rw [Finset.sum_range_one]
  rw [sub_self]
  norm_num

/-- C5 counterexample: on a one-row table with 100 of PTC, zero other
costs and 10 MWh of energy, the code's LCOE is 0 while the claim's
PTC-netting formula gives -10: calculate_lcoe never subtracts ptc_amount. -/
theorem lcoe_ptc_counterexample :
    calculate_lcoe (8/100) (1/40) 1 (fun _ => 0) (fun _ => 0) (fun _ => 0)
        (fun _ => 0) (fun _ => 0) (fun _ => 0) (fun _ => 10)
      = (some 0, some 0)
    ∧ lcoe_per_spec (8/100) (1/40) 1 (fun _ => 0) (fun _ => 0) (fun _ => 0)
        (fun _ => 0) (fun _ => 0) (fun _ => 100) (fun _ => 0) (fun _ => 10)
      = (some (-10), some (-10))
    ∧ (some (0:ℝ) ≠ some (-10 : ℝ)) := by
  have hen : ∀ rate : ℝ, calculate_xnpv 1 (fun _ => 0) (fun _ => (10:ℚ)) rate
      = 10 := by
    intro rate
    rw [xnpv_single_row]
    norm_num
  refine ⟨?_, ?_, by simp⟩
  · unfold calculate_lcoe
    simp only [hen, xnpv_single_row]
    norm_num
  · unfold lcoe_per_spec
    simp only [hen, xnpv_single_row]
    norm_num

/-- C5 (amended): the LCOE numerator (nominal and real) is the present
value of capital cost plus operating cost plus debt service, net of ITC and
net of upfront grants - PTC does not enter it - and the denominator is the
present value of energy, with the real LCOE at the Fisher-deflated rate:
calculate_lcoe coincides with the spec-shaped formula with the PTC term
removed (a zero ptc_amount column), for every input. -/
theorem lcoe_costs_amended (discountRate inflationRate : ℝ) (n : ℕ)
    (dates : ℕ → ℤ)
    (total_capex total_opex total_debt_service itc_credit upfront_grants
      ac_mwh : ℕ → ℚ) :
    calculate_lcoe discountRate inflationRate n dates total_capex total_opex
      total_debt_service itc_credit upfront_grants ac_mwh =
    lcoe_per_spec discountRate inflationRate n dates total_capex total_opex
      total_debt_service itc_credit (fun _ => 0) upfront_grants ac_mwh := by
  unfold calculate_lcoe lcoe_per_spec
  have hcosts : (fun p => total_capex p + total_opex p +
      total_debt_service p - itc_credit p - upfront_grants p) =
    (fun p => total_capex p + total_opex p + total_debt_service p -
      itc_credit p - (fun _ => (0:ℚ)) p - upfront_grants p) := by
    funext p
    simp
  rw [hcosts]

/-! ## Depreciation schedule and revenue escalators
(src/model/tax.py lines 96-171, src/model/revenue.py lines 60-101, 179-214) -/

/-- MACRS 5-year half-year-convention annual rates (tax.py line 15). -/
def MACRS_5YR : List ℚ := [0.2000, 0.3200, 0.1920, 0.1152, 0.1152, 0.0576]

/-- MACRS 7-year annual rates (tax.py line 18). -/
def MACRS_7YR : List ℚ :=
  [0.1429, 0.2449, 0.1749, 0.1249, 0.0893, 0.0892, 0.0893, 0.0446]

/-- Embeds the schedule lookup of tax.py lines 108-115: unknown names fall
back to the 5-year table. -/
def depreciation_schedule_for (schedName : String) : List ℚ :=
  if schedName = "MACRS_5yr" then MACRS_5YR
  else if schedName = "MACRS_7yr" then MACRS_7YR
  else MACRS_5YR

/-- Embeds the annual depreciation vector of tax.py lines 117-134: with
bonus depreciation, the bonus plus the first-year rate on the remaining
basis in year one and table rates on the remaining basis afterwards;
otherwise the table rates on the full basis. -/
def annual_depreciation (schedule : List ℚ) (bonusPct basis : ℚ) : List ℚ :=
  if 0 < bonusPct then
    match schedule with
    | [] => []
    | s0 :: rest =>
      (basis * bonusPct + (basis - basis * bonusPct) * s0) ::
        rest.map (fun s => (basis - basis * bonusPct) * s)
  else schedule.map (fun s => basis * s)

/-- Embeds TaxModel.calculate_depreciation (tax.py lines 136-171) as a
function of the period index: zero during construction; otherwise the
annual amount indexed by the zero-based (period - cm) // 12, spread evenly
over 12 months, zero once the schedule is exhausted. -/
def calculate_depreciation (schedName : String) (bonusPct basis : ℚ)
    (cm : ℕ) (p : ℕ) : ℚ :=
  let annual := annual_depreciation (depreciation_schedule_for schedName)
    bonusPct basis
  if p < cm then 0
  else if (p - cm) / 12 < annual.length then annual.getD ((p - cm) / 12) 0 / 12
  else 0

/-- Embeds RevenueModel._calculate_rec_revenue (revenue.py lines 60-80):
energy times the REC price escalated by (1+e)^(year_in_operation - 1). -/
def rec_revenue (recPrice recEsc : ℚ) (cm : ℕ) (mwh : ℕ → ℚ) (p : ℕ) : ℚ :=
  if 0 < month_in_operation cm p then
    mwh p * (recPrice * (1 + recEsc) ^ (year_in_operation cm p - 1))
  else 0

/-- Embeds RevenueModel._calculate_ppa_revenue (revenue.py lines 179-214):
(ppa, merchant) revenue; the contract applies while year_in_operation is
at most the term, after which the merchant tail freezes the final escalated
price. -/
def ppa_revenue_pair (ppaPrice ppaEsc : ℚ) (termYears : ℕ) (cm : ℕ)
    (mwh : ℕ → ℚ) (p : ℕ) : ℚ × ℚ :=
  if 0 < month_in_operation cm p then
    if year_in_operation cm p ≤ termYears then
      (mwh p * (ppaPrice * (1 + ppaEsc) ^ (year_in_operation cm p - 1)), 0)
    else (0, mwh p * (ppaPrice * (1 + ppaEsc) ^ (termYears - 1)))
  else (0, 0)

/-- The annual depreciation vector has the chosen schedule's length. -/
theorem annual_depreciation_length (schedule : List ℚ) (b basis : ℚ) :
    (annual_depreciation schedule b basis).length = schedule.length := by
  unfold annual_depreciation
  split
  · cases schedule with
    | nil => rfl
    | cons s0 rest => simp
  · simp

/-- Every name selects a nonempty depreciation schedule. -/
theorem depreciation_schedule_for_pos (schedName : String) :
    0 < (depreciation_schedule_for schedName).length := by
  unfold depreciation_schedule_for
  split
  · simp [MACRS_5YR]
  · split
    · simp [MACRS_7YR]
    · simp [MACRS_5YR]

/-- C10: the grid labels operating months with year_in_operation =
month // 12 + 1 (0 during construction), so the first operating year label
covers only operating months 1 through 11 (periods cm through cm+10) and
the 12th operating month is labeled year 2; the REC escalator, the
degradation factor and the PPA term cutoff all key off this label, while
the depreciation schedule uses its own zero-based convention that keeps
all of the first 12 operating months in annual-schedule index 0. -/
theorem grid_year_labeling (cm i : ℕ) (schedName : String)
    (bonusPct basis recPrice recEsc rate : ℚ) (mwh : ℕ → ℚ) :
    (i < cm → month_in_operation cm i = 0 ∧ year_in_operation cm i = 0)
    ∧ (cm ≤ i → month_in_operation cm i = i - cm + 1
        ∧ year_in_operation cm i = month_in_operation cm i / 12 + 1)
    ∧ (year_in_operation cm i = 1 ↔ cm ≤ i ∧ i < cm + 11)
    ∧ (month_in_operation cm i = 12 → year_in_operation cm i = 2)
    ∧ (∀ k, k < 12 → calculate_depreciation schedName bonusPct basis cm (cm + k)
        = (annual_depreciation (depreciation_schedule_for schedName)
            bonusPct basis).getD 0 0 / 12)
    ∧ year_in_operation cm (cm + 11) = 2
    ∧ (∀ k, k ≤ 10 → rec_revenue recPrice recEsc cm mwh (cm + k)
        = mwh (cm + k) * (recPrice * (1 + recEsc) ^ 0))
    ∧ rec_revenue recPrice recEsc cm mwh (cm + 11)
        = mwh (cm + 11) * (recPrice * (1 + recEsc) ^ 1)
    ∧ degradation_factor rate (year_in_operation cm (cm + 11))
        = 1 - rate * 1
    ∧ (ppa_revenue_pair recPrice recEsc 1 cm mwh (cm + 11)).1 = 0 := by
  have hmonth : ∀ j, month_in_operation cm (cm + j) = j + 1 := by
    intro j
    unfold month_in_operation
    rw [if_neg (by omega)]
    omega
  have hyear : ∀ j, j < 11 → year_in_operation cm (cm + j) = 1 := by
    intro j hj
    unfold year_in_operation
    rw [hmonth j]
    have hz : (j + 1) / 12 = 0 := by omega
    rw [if_pos (by omega), hz]
  have hyear11 : year_in_operation cm (cm + 11) = 2 := by
    unfold year_in_operation
    rw [hmonth 11]
    norm_num
  refine ⟨?_, ?_, ?_, ?_, ?_, hyear11, ?_, ?_, ?_, ?_⟩
  · intro hi
    unfold year_in_operation month_in_operation
    simp [hi]
  · intro hi
    have hm : month_in_operation cm i = i - cm + 1 := by
      unfold month_in_operation
      rw [if_neg (by omega)]
    refine ⟨hm, ?_⟩
    unfold year_in_operation
    rw [hm, if_pos (by omega)]
  · constructor
    · intro h1
      unfold year_in_operation month_in_operation at h1
      by_cases hi : i < cm
      · rw [if_pos hi] at h1
        simp at h1
      · rw [if_neg hi, if_pos (by omega)] at h1
        omega
    · rintro ⟨h1, h2⟩
      have hri : i = cm + (i - cm) := by omega
      rw [hri]
      exact hyear (i - cm) (by omega)
  · intro hm
    unfold year_in_operation
    rw [hm]
    norm_num
  · intro k hk
    unfold calculate_depreciation
    rw [if_neg (by omega)]
    have hidx : (cm + k - cm) / 12 = 0 := by omega
    rw [hidx, if_pos]
    rw [annual_depreciation_length]
    exact depreciation_schedule_for_pos schedName
  · intro k hk
    unfold rec_revenue
    rw [if_pos (by rw [hmonth k]; omega), hyear k (by omega)]
  · unfold rec_revenue
    rw [if_pos (by rw [hmonth 11]; omega), hyear11]
  · rw [hyear11]
    unfold degradation_factor
    norm_num
  · unfold ppa_revenue_pair
    rw [if_pos (by rw [hmonth 11]; omega), if_neg (by rw [hyear11]; omega)]

/-- Witness for grid_year_labeling with construction_months = 12 and a
constant energy column: operating month 12 (period 23) is labeled year 2
and its REC revenue is already escalated once. -/
theorem grid_year_labeling_witness :
    year_in_operation 12 16 = 1
    ∧ rec_revenue 5 (1/10) 12 (fun _ => 2) 23 = 2 * (5 * (1 + 1/10) ^ 1)
    ∧ calculate_depreciation "MACRS_5yr" 0 1000 12 23
        = (annual_depreciation (depreciation_schedule_for "MACRS_5yr") 0 1000).getD 0 0 / 12 := by
  have h := grid_year_labeling 12 16 "MACRS_5yr" 0 1000 5 (1/10) 0 (fun _ => 2)
  refine ⟨(h.2.2.1).mpr (by omega), ?_, ?_⟩
  · exact (grid_year_labeling 12 23 "MACRS_5yr" 0 1000 5 (1/10) 0
      (fun _ => 2)).2.2.2.2.2.2.2.1
  · exact (grid_year_labeling 12 23 "MACRS_5yr" 0 1000 5 (1/10) 0
      (fun _ => 2)).2.2.2.2.1 11 (by omega)

/-! ## Remaining pipeline components for the full model run
(src/model/tax.py lines 30-94, src/model/debt.py lines 22-77 and 173-294,
src/model/cashflow.py lines 20-132, src/model/metrics.py, src/model/runner.py) -/

/-- Embeds TaxModel.calculate_itc (tax.py lines 30-62): zero credit and an
unchanged basis for every mode other than ITC; otherwise the (optionally
grant-reduced) basis times the summed percentage, with the depreciation
basis reduced by the configured share of the credit. -/
def calculate_itc (mode : String) (itcPct addersPct basisRedPct : ℚ)
    (reduceForGrants : Bool) (basis grants : ℚ) : ℚ × ℚ :=
  if mode ≠ "ITC" then (0, basis)
  else
    let itcBasis := if 0 < grants ∧ reduceForGrants = true
      then basis - grants else basis
    let itcAmount := itcBasis * (itcPct / 100 + addersPct / 100)
    (itcAmount, basis - itcAmount * (basisRedPct / 100))

/-- Embeds TaxModel.calculate_ptc (tax.py lines 64-94): a zero column for
every mode other than PTC; otherwise energy times the per-MWh credit for
operating months inside the PTC term. -/
def calculate_ptc (mode : String) (ptcRate : ℚ) (ptcTermYears : ℕ) (cm : ℕ)
    (mwh : ℕ → ℚ) : ℕ → ℚ :=
  fun p =>
    if mode ≠ "PTC" then 0
    else if 0 < month_in_operation cm p ∧
        month_in_operation cm p ≤ ptcTermYears * 12 then mwh p * ptcRate
    else 0

/-- Embeds DebtModel.size_debt (debt.py lines 22-77): the target-DSCR
method converts the mean operating cash availability into a level payment
and then a principal via the annuity factor, capped at 80% of capital cost;
the percent-of-cost method takes a flat share; unknown methods size zero. -/
def size_debt (useDebt : Bool) (sizingMethod : String) (targetDscr r : ℚ)
    (tenorMonths : ℕ) (debtPctOfCost : ℚ) (n cm : ℕ) (cfadsEst : ℕ → ℚ)
    (totalCapex : ℚ) : ℚ :=
  if useDebt = false then 0
  else if sizingMethod = "target_dscr" then
    let operating := (Finset.range n).filter
      (fun p => 0 < month_in_operation cm p)
    let avgCfads := (∑ p ∈ operating, cfadsEst p) / (operating.card : ℚ)
    let targetPayment := avgCfads / targetDscr
    let debtAmount := if 0 < r
      then targetPayment * (((1 + r) ^ tenorMonths - 1) /
        (r * (1 + r) ^ tenorMonths))
      else targetPayment * (tenorMonths : ℚ)
    min debtAmount (totalCapex * (80/100))
  else if sizingMethod = "percent_of_cost" then
    totalCapex * (debtPctOfCost / 100)
  else 0

/-- Embeds DebtModel.calculate_idc (debt.py lines 228-269): interest on the
cumulative proportional debt draw over each construction month, summed. -/
def calculate_idc (useDebt : Bool) (P r idcPct : ℚ) (cm : ℕ)
    (capex : ℕ → ℚ) : ℚ :=
  if useDebt = false ∨ P ≤ 0 then 0
  else
    let totalConstructionCapex := ∑ i ∈ Finset.range cm, capex i
    if totalConstructionCapex = 0 then 0
    else ∑ i ∈ Finset.range cm,
      (∑ j ∈ Finset.range (i + 1), capex j) / totalConstructionCapex * P *
        r * idcPct

/-- Embeds the reserve funding columns of DebtModel.calculate_reserves
(debt.py lines 173-226): a single lump at the COD period (period + 1 =
construction months, hence never during a zero-month construction), DSRA
only when debt is on. -/
def dsra_funding_col (useDebt : Bool) (dsraTarget : ℚ) (cm : ℕ) : ℕ → ℚ :=
  fun p => if p + 1 = cm then (if useDebt then dsraTarget else 0) else 0

/-- The O&M reserve funding column of DebtModel.calculate_reserves. -/
def om_funding_col (omTarget : ℚ) (cm : ℕ) : ℕ → ℚ :=
  fun p => if p + 1 = cm then omTarget else 0

/-- Embeds the ITC credit placement of cashflow.py lines 67-72: the credit
lands at the COD period when positive. -/
def itc_credit_col (itcAmount : ℚ) (cm n : ℕ) : ℕ → ℚ :=
  fun p => if 0 < itcAmount ∧ p + 1 = cm ∧ p < n then itcAmount else 0

/-- Embeds the upfront grant placement of cashflow.py lines 74-83: at
period 0 for NTP timing, at the COD period otherwise. -/
def upfront_grants_col (grants : ℚ) (timing : String) (cm n : ℕ) : ℕ → ℚ :=
  fun p =>
    if 0 < grants then
      if timing = "NTP" then (if p = 0 ∧ 0 < n then grants else 0)
      else (if p + 1 = cm ∧ p < n then grants else 0)
    else 0

/-- Running maximum of a column over periods 0..k-1, base 0: the pandas
Series.max of cashflow.py line 113 (exact here because the debt balance
column it is applied to is nonnegative). -/
def colMax (f : ℕ → ℚ) : ℕ → ℚ
  | 0 => 0
  | k + 1 => max (colMax f k) (f k)

/-- Embeds the cumulative-payback loop of
MetricsCalculator.calculate_payback (metrics.py lines 135-154): the first
period index at which the running sum of equity cashflow turns positive,
reported as (index + 1) / 12 years, none when never reached. -/
def paybackLoop (eq : ℕ → ℚ) : ℕ → ℕ → ℚ → Option ℚ
  | 0, _, _ => none
  | fuel + 1, idx, cum =>
    if 0 < cum + eq idx then some (((idx + 1 : ℕ) : ℚ) / 12)
    else paybackLoop eq fuel (idx + 1) (cum + eq idx)

/-- Payback over an n-period table. -/
def calculate_payback (n : ℕ) (eq : ℕ → ℚ) : Option ℚ :=
  paybackLoop eq n 0 0

/-- The final cashflow table columns and the metrics dictionary produced by
SolarFinancialModel.run (runner.py lines 61-189). -/
structure RunResult where
  ptc_amount : ℕ → ℚ
  total_revenue : ℕ → ℚ
  total_opex : ℕ → ℚ
  total_capex : ℕ → ℚ
  debt_balance : ℕ → ℚ
  interest_payment : ℕ → ℚ
  principal_payment : ℕ → ℚ
  total_debt_service : ℕ → ℚ
  depreciation_federal : ℕ → ℚ
  dsra_funding : ℕ → ℚ
  om_reserve_funding : ℕ → ℚ
  itc_credit : ℕ → ℚ
  upfront_grants : ℕ → ℚ
  debt_drawdown : ℕ → ℚ
  ebitda : ℕ → ℚ
  ebit : ℕ → ℚ
  taxable_income : ℕ → ℚ
  total_tax : ℕ → ℚ
  cfads : ℕ → ℚ
  fcfe : ℕ → ℚ
  equity_contribution : ℕ → ℚ
  equity_distribution : ℕ → ℚ
  dscr : ℕ → Option ℚ
  terminal_value : ℕ → ℚ
  pre_tax_irr : Except Unit (Option ℝ)
  post_tax_irr : Except Unit (Option ℝ)
  project_irr : Except Unit (Option ℝ)
  equity_npv : ℝ
  project_npv : ℝ
  payback_years : Option ℚ
  lcoe : Option ℝ × Option ℝ
  min_dscr : Option ℚ
  avg_dscr : Option ℚ
  year1_dscr : Option ℚ
  total_equity_invested : ℚ
  total_capex_metric : ℚ
  total_debt : ℚ
  lifetime_energy_mwh : ℚ
  lifetime_revenue : ℚ

/-- Embeds SolarFinancialModel.run from step 5 on (runner.py lines 94-189),
over the mode-independent upstream outputs: the energy/revenue/opex columns,
the pre-IDC capex schedule and totals, the depreciable basis and the
upfront grants (none of those models read tax_credits.mode). Follows the
source order: ITC and depreciation, PTC, preliminary cash estimate, debt
sizing and service, IDC added to the COD capex, reserves, waterfall
assembly, NOL taxes, the authoritative CFADS/FCFE/equity recompute, DSCR,
terminal value added to distributions, and the metrics dictionary. -/
noncomputable def runModel (mode : String)
    (itcPct addersPct basisRedPct : ℚ) (reduceForGrants : Bool)
    (ptcRate : ℚ) (ptcTermYears : ℕ)
    (schedName : String) (bonusPct : ℚ)
    (fedRate stRate : ℚ)
    (useDebt : Bool) (sizingMethod : String) (targetDscr interestRatePct : ℚ)
    (tenorYears : ℕ) (debtPctOfCost idcPct : ℚ) (amort : String)
    (dsraMonths omReserveMonths : ℚ)
    (cm n : ℕ) (date : ℕ → ℤ)
    (ac_mwh total_revenue total_opex capex0 : ℕ → ℚ)
    (totalCapexBeforeIdc basis grants : ℚ) (grantsTiming : String)
    (exitYears : List ℕ) (exitMult : ℚ)
    (discountRate inflationRate : ℝ) : RunResult :=
  let itcPair := calculate_itc mode itcPct addersPct basisRedPct
    reduceForGrants basis grants
  let itcAmount := itcPair.1
  let depreciation := fun p =>
    calculate_depreciation schedName bonusPct itcPair.2 cm p
  let ptc := calculate_ptc mode ptcRate ptcTermYears cm ac_mwh
  let cfadsEst := fun p => total_revenue p - total_opex p
  let r := interestRatePct / 100 / 12
  let tenorMonths := tenorYears * 12
  let debtPrincipal := size_debt useDebt sizingMethod targetDscr r
    tenorMonths debtPctOfCost n cm cfadsEst totalCapexBeforeIdc
  let debtRow := fun p =>
    calculate_debt_service useDebt debtPrincipal r tenorMonths cm amort p
  let idcAmount := calculate_idc useDebt debtPrincipal r idcPct cm capex0
  let total_capex := fun p => capex0 p + (if p + 1 = cm then idcAmount else 0)
  let operating := (Finset.range n).filter
    (fun p => 0 < month_in_operation cm p)
  let avgOpex := (∑ p ∈ operating, total_opex p) / (operating.card : ℚ)
  let withDs := (Finset.range n).filter
    (fun p => 0 < (debtRow p).total_debt_service)
  let avgDebtService := (∑ p ∈ withDs, (debtRow p).total_debt_service) /
    (withDs.card : ℚ)
  let dsra := dsra_funding_col useDebt (avgDebtService * dsraMonths) cm
  let omres := om_funding_col (avgOpex * omReserveMonths) cm
  let itcCol := itc_credit_col itcAmount cm n
  let grantsCol := upfront_grants_col grants grantsTiming cm n
  let ebitda := fun p => total_revenue p - total_opex p
  let ebit := fun p => ebitda p - depreciation p
  let taxable := fun p => ebit p - (debtRow p).interest_payment
  let drawdown := fun p =>
    if useDebt = true ∧ 0 < cm ∧ p + 1 = cm then
      colMax (fun q => (debtRow q).debt_balance) n
    else 0
  let taxRow := fun p => calculate_taxes fedRate stRate taxable p
  let total_tax := fun p => (taxRow p).total_tax
  let cfads := fun p => ebitda p - total_tax p + itcCol p + grantsCol p -
    dsra p - omres p
  let fcfe := fun p => cfads p - (debtRow p).total_debt_service +
    drawdown p - total_capex p
  let contrib := fun p => equity_contribution (fcfe p)
  let distPre := fun p => equity_distribution (fcfe p)
  let dscrCol := fun p =>
    if 0 < (debtRow p).total_debt_service then
      some (cfads p / (debtRow p).total_debt_service)
    else none
  let tv := add_terminal_value cm exitYears exitMult n ebitda
  let distF := fun p => distPre p + tv p
  let equityCf := fun p => -(contrib p) + distF p
  let projectCf := fun p => total_revenue p - total_opex p - total_capex p -
    total_tax p + itcCol p + grantsCol p
  let S := (Finset.range n).filter (fun p =>
    0 < month_in_operation cm p ∧ 0 < (debtRow p).total_debt_service)
  let minD := if h : S.Nonempty then
    some (S.inf' h (fun p => cfads p / (debtRow p).total_debt_service))
    else none
  let avgD := if S.Nonempty then
    some ((∑ p ∈ S, cfads p / (debtRow p).total_debt_service) / (S.card : ℚ))
    else none
  let S1 := S.filter (fun p => year_in_operation cm p = 1)
  let y1D := if S.Nonempty then
    (if S1.Nonempty then
      some ((∑ p ∈ S1, cfads p / (debtRow p).total_debt_service) /
        (S1.card : ℚ))
     else none)
    else none
  { ptc_amount := ptc
    total_revenue := total_revenue
    total_opex := total_opex
    total_capex := total_capex
    debt_balance := fun p => (debtRow p).debt_balance
    interest_payment := fun p => (debtRow p).interest_payment
    principal_payment := fun p => (debtRow p).principal_payment
    total_debt_service := fun p => (debtRow p).total_debt_service
    depreciation_federal := depreciation
    dsra_funding := dsra
    om_reserve_funding := omres
    itc_credit := itcCol
    upfront_grants := grantsCol
    debt_drawdown := drawdown
    ebitda := ebitda
    ebit := ebit
    taxable_income := taxable
    total_tax := total_tax
    cfads := cfads
    fcfe := fcfe
    equity_contribution := contrib
    equity_distribution := distF
    dscr := dscrCol
    terminal_value := tv
    pre_tax_irr := calculate_xirr n date equityCf
    post_tax_irr := calculate_xirr n date equityCf
    project_irr := calculate_xirr n date projectCf
    equity_npv := calculate_xnpv n date equityCf discountRate
    project_npv := calculate_xnpv n date projectCf discountRate
    payback_years := calculate_payback n equityCf
    lcoe := calculate_lcoe discountRate inflationRate n date total_capex
      total_opex (fun p => (debtRow p).total_debt_service) itcCol grantsCol
      ac_mwh
    min_dscr := minD
    avg_dscr := avgD
    year1_dscr := y1D
    total_equity_invested := ∑ p ∈ Finset.range n, contrib p
    total_capex_metric := ∑ p ∈ Finset.range n, total_capex p
    total_debt := colMax (fun q => (debtRow q).debt_balance) n
    lifetime_energy_mwh := ∑ p ∈ Finset.range n, ac_mwh p
    lifetime_revenue := ∑ p ∈ Finset.range n, total_revenue p }

/-- C9: two model runs identical except for tax_credits.mode PTC versus
none (ITC off in both) produce final cashflow tables agreeing on every
column except ptc_amount - total_revenue is passed through unchanged, and
taxable income, total_tax, CFADS, FCFE, the equity split and every entry of
the metrics dictionary coincide: the computed monthly PTC amounts never
flow into revenue totals, the waterfall, taxes, or metrics. -/
theorem ptc_mode_no_flowthrough
    (itcPct addersPct basisRedPct : ℚ) (reduceForGrants : Bool)
    (ptcRate : ℚ) (ptcTermYears : ℕ) (schedName : String) (bonusPct : ℚ)
    (fedRate stRate : ℚ) (useDebt : Bool) (sizingMethod : String)
    (targetDscr interestRatePct : ℚ) (tenorYears : ℕ)
    (debtPctOfCost idcPct : ℚ) (amort : String)
    (dsraMonths omReserveMonths : ℚ) (cm n : ℕ) (date : ℕ → ℤ)
    (ac_mwh total_revenue total_opex capex0 : ℕ → ℚ)
    (totalCapexBeforeIdc basis grants : ℚ) (grantsTiming : String)
    (exitYears : List ℕ) (exitMult : ℚ) (discountRate inflationRate : ℝ) :
    let R : String → RunResult := fun mode => runModel mode
      itcPct addersPct basisRedPct reduceForGrants ptcRate ptcTermYears
      schedName bonusPct fedRate stRate useDebt sizingMethod targetDscr
      interestRatePct tenorYears debtPctOfCost idcPct amort dsraMonths
      omReserveMonths cm n date ac_mwh total_revenue total_opex capex0
      totalCapexBeforeIdc basis grants grantsTiming exitYears exitMult
      discountRate inflationRate
    (R "PTC").ptc_amount = calculate_ptc "PTC" ptcRate ptcTermYears cm ac_mwh
    ∧ (R "none").ptc_amount = (fun _ => 0)
    ∧ (R "PTC").total_revenue = total_revenue
    ∧ (R "PTC").total_revenue = (R "none").total_revenue
    ∧ (R "PTC").total_opex = (R "none").total_opex
    ∧ (R "PTC").total_capex = (R "none").total_capex
    ∧ (R "PTC").debt_balance = (R "none").debt_balance
    ∧ (R "PTC").interest_payment = (R "none").interest_payment
    ∧ (R "PTC").principal_payment = (R "none").principal_payment
    ∧ (R "PTC").total_debt_service = (R "none").total_debt_service
    ∧ (R "PTC").depreciation_federal = (R "none").depreciation_federal
    ∧ (R "PTC").dsra_funding = (R "none").dsra_funding
    ∧ (R "PTC").om_reserve_funding = (R "none").om_reserve_funding
    ∧ (R "PTC").itc_credit = (R "none").itc_credit
    ∧ (R "PTC").upfront_grants = (R "none").upfront_grants
    ∧ (R "PTC").debt_drawdown = (R "none").debt_drawdown
    ∧ (R "PTC").ebitda = (R "none").ebitda
    ∧ (R "PTC").ebit = (R "none").ebit
    ∧ (R "PTC").taxable_income = (R "none").taxable_income
    ∧ (R "PTC").total_tax = (R "none").total_tax
    ∧ (R "PTC").cfads = (R "none").cfads
    ∧ (R "PTC").fcfe = (R "none").fcfe
    ∧ (R "PTC").equity_contribution = (R "none").equity_contribution
    ∧ (R "PTC").equity_distribution = (R "none").equity_distribution
    ∧ (R "PTC").dscr = (R "none").dscr
    ∧ (R "PTC").terminal_value = (R "none").terminal_value
    ∧ (R "PTC").pre_tax_irr = (R "none").pre_tax_irr
    ∧ (R "PTC").post_tax_irr = (R "none").post_tax_irr
    ∧ (R "PTC").project_irr = (R "none").project_irr
    ∧ (R "PTC").equity_npv = (R "none").equity_npv
    ∧ (R "PTC").project_npv = (R "none").project_npv
    ∧ (R "PTC").payback_years = (R "none").payback_years
    ∧ (R "PTC").lcoe = (R "none").lcoe
    ∧ (R "PTC").min_dscr = (R "none").min_dscr
    ∧ (R "PTC").avg_dscr = (R "none").avg_dscr
    ∧ (R "PTC").year1_dscr = (R "none").year1_dscr
    ∧ (R "PTC").total_equity_invested = (R "none").total_equity_invested
    ∧ (R "PTC").total_capex_metric = (R "none").total_capex_metric
    ∧ (R "PTC").total_debt = (R "none").total_debt
    ∧ (R "PTC").lifetime_energy_mwh = (R "none").lifetime_energy_mwh
    ∧ (R "PTC").lifetime_revenue = (R "none").lifetime_revenue := by
  intro R
  refine ⟨rfl, ?_, rfl, rfl, rfl, rfl, rfl, rfl, rfl, rfl, rfl, rfl, rfl,
    rfl, rfl, rfl, rfl, rfl, rfl, rfl, rfl, rfl, rfl, rfl, rfl, rfl, rfl,
    rfl, rfl, rfl, rfl, rfl, rfl, rfl, rfl, rfl, rfl, rfl, rfl, rfl, rfl⟩
  show calculate_ptc "none" ptcRate ptcTermYears cm ac_mwh = (fun _ => 0)
  funext p
  unfold calculate_ptc
  rw [if_pos (by decide)]

end SolarModel
